import Mathlib

set_option maxRecDepth 100000

/-!
Verification development for the Resistance/Avalon-style game server in
`src/server.js`. The mutable per-room `game` object is embedded as the
structure `Game`; JavaScript objects used as string-keyed dictionaries
(`votes`, `missionVotes`, vote tallies) are embedded as insertion-ordered
association lists, matching the iteration order of `Object.keys` /
`Object.values` on string-keyed objects. In-place mutation of player
objects becomes functional update of the `players` list. A JavaScript
`TypeError` (e.g. dereferencing the result of a failed `Array.find`) is
embedded as the `crash` constructor of `StepResult`, carrying the state as
mutated up to the point where the exception is thrown; the server's
`ws.on('message')` handler catches such exceptions, so the room keeps the
partially mutated state.
-/

namespace Resistance

/-- One entry of `game.players` (see `initGame`, src/server.js lines 49-104). -/
structure Player where
  id : String
  name : String
  role : String
  spyNumber : Option Nat
  isLeader : Bool
  nominated : Bool
  voted : Bool
  missionVote : Option String
  confirmedRole : Bool
deriving DecidableEq, Repr

/-- One entry of `game.missionResults`. The scheduler's timeout branch pushes
`{mission, success:false, failCount:0, note:'Таймаут'}` (no `successCount`),
the ballot branch pushes `{mission, success, failCount, successCount}`
(no `note`); the optional fields cover both shapes. -/
structure MissionResult where
  mission : Nat
  success : Bool
  failCount : Nat
  successCount : Option Nat
  note : Option String
deriving DecidableEq, Repr

/-- The `room.game` object created by `initGame` (src/server.js lines 77-104).
`currentLeaderIndex` and `currentPlayerIndex` are `Int` because
`Array.prototype.indexOf` returns `-1` when the sought element is absent and
the code stores that result directly. -/
structure Game where
  players : List Player
  phase : String
  currentMission : Nat
  missionSizes : List Nat
  successfulMissions : Nat
  failedMissions : Nat
  currentLeaderIndex : Int
  currentPlayerIndex : Int
  discussionTurnCount : Nat
  discussionTimeLeft : Nat
  nominationTimeLeft : Nat
  tieTimeLeft : Nat
  nominatedPlayers : List String
  votes : List (String × String)
  missionTeam : List String
  missionVotes : List (String × String)
  missionResults : List MissionResult
  tieCandidates : List String
  isTieBreakerVote : Bool
  gameOver : Bool
  winner : Option String
deriving DecidableEq, Repr

/-- Result of one mutation entry point: `ok` is normal completion, `crash` is
a thrown `TypeError`, carrying the state as already mutated in place when the
exception escapes. -/
inductive StepResult where
  | ok (g : Game)
  | crash (g : Game)
deriving DecidableEq, Repr

/-- State carried by a `StepResult`; for a crash this is the state the room
keeps after the server's catch-all swallows the exception. -/
def resState : StepResult → Game
  | .ok g => g
  | .crash g => g

/-- Whether a step ended in a thrown exception. -/
def isCrash : StepResult → Bool
  | .ok _ => false
  | .crash _ => true

/-- JavaScript `obj[k] = v` on a string-keyed object: an existing key keeps
its position with the value replaced, a new key is appended. -/
def setKey : List (String × String) → String → String → List (String × String)
  | [], k, v => [(k, v)]
  | (k', v') :: rest, k, v =>
      if k' == k then (k, v) :: rest else (k', v') :: setKey rest k v

/-- JavaScript `obj[k]` read on a string-keyed object. -/
def lookupKey : List (String × String) → String → Option String
  | [], _ => none
  | (k', v') :: rest, k => if k' == k then some v' else lookupKey rest k

/-- One step of building the tally object: `counts[name] = (counts[name] || 0) + 1`. -/
def bumpCount : List (String × Nat) → String → List (String × Nat)
  | [], k => [(k, 1)]
  | (k', c) :: rest, k =>
      if k' == k then (k, c + 1) :: rest else (k', c) :: bumpCount rest k

/-- The `counts` object of `processLeaderVote` (src/server.js lines 155-156):
fold over `Object.values(game.votes)` in insertion order. -/
def tallyCounts (votes : List (String × String)) : List (String × Nat) :=
  votes.foldl (fun m kv => bumpCount m kv.2) []

/-- The `max` scan of `processLeaderVote` (lines 159-160). -/
def maxCount (counts : List (String × Nat)) : Nat :=
  counts.foldl (fun mx kv => if kv.2 > mx then kv.2 else mx) 0

/-- `winners` of `processLeaderVote` (line 162): the candidate names whose
count equals the maximum, in first-occurrence order. -/
def leaderVoteWinners (votes : List (String × String)) : List String :=
  let counts := tallyCounts votes
  (counts.filter (fun kv => kv.2 == maxCount counts)).map (fun kv => kv.1)

/-- Mutate the first player with the given id (JS `players.find` + in-place
field assignment). -/
def updFirstById : List Player → String → (Player → Player) → List Player
  | [], _, _ => []
  | p :: rest, pid, f =>
      if p.id == pid then f p :: rest else p :: updFirstById rest pid f

/-- Mutate the first player with the given name. -/
def updFirstByName : List Player → String → (Player → Player) → List Player
  | [], _, _ => []
  | p :: rest, nm, f =>
      if p.name == nm then f p :: rest else p :: updFirstByName rest nm f

/-- Mutate the player at a given (in-range) position. -/
def setIdx : List Player → Nat → (Player → Player) → List Player
  | [], _, _ => []
  | p :: rest, 0, f => f p :: rest
  | p :: rest, i + 1, f => p :: setIdx rest i f

/-- Index of the first player satisfying the predicate (JS `find` composed
with `indexOf` on the found object). -/
def findIdxBy : List Player → (Player → Bool) → Option Nat
  | [], _ => none
  | p :: rest, f => if f p then some 0 else (findIdxBy rest f).map (· + 1)

/-- JavaScript array read `players[i]`: `undefined` (here `none`) outside
the valid range, including negative indices. -/
def getIdx (l : List Player) (i : Int) : Option Player :=
  if i < 0 then none else l.get? i.toNat

/-- `Array.prototype.indexOf` result as stored by the code: the index, or -1. -/
def jsIdxToInt : Option Nat → Int
  | some n => (n : Int)
  | none => -1

/-- `game.players.forEach(p => p.isLeader = false)`. -/
def clearLeaders (l : List Player) : List Player :=
  l.map (fun p => { p with isLeader := false })

/-- Number of players whose `isLeader` flag is set. -/
def countLeaders (l : List Player) : Nat :=
  l.countP (fun p => p.isLeader)

/-- Fail-ballot count: `Object.values(game.missionVotes)` scanned for 'fail'
(src/server.js lines 587-588). -/
def countFails (m : List (String × String)) : Nat :=
  (m.filter (fun kv => kv.2 == "fail")).length

/-- SPY_COUNTS table with the `|| 2` fallback (lines 36, 52). -/
def spyCountFor (n : Nat) : Nat :=
  match n with
  | 5 => 2 | 6 => 2 | 7 => 3 | 8 => 3 | 9 => 3
  | _ => 2

/-- getMissionSizes (lines 39-42): explicit 7-player override, otherwise the
MISSION_SIZES table with fallback to the 5-player row. -/
def getMissionSizes (n : Nat) : List Nat :=
  if n == 7 then [2, 3, 4, 3, 4]
  else match n with
    | 5 => [2, 3, 2, 3, 3]
    | 6 => [2, 3, 4, 3, 4]
    | 8 => [3, 4, 5, 4, 5]
    | 9 => [3, 4, 4, 5, 5]
    | _ => [2, 3, 2, 3, 3]

/-- A roster entry before role assignment. -/
structure RoomPlayer where
  id : String
  name : String
deriving DecidableEq, Repr

/-- Role-assignment loop of `initGame` (lines 58-72): iterate the roster in
order, giving spies dense ordinals starting at 1. -/
def assignRolesGo : List RoomPlayer → List String → Nat → List Player
  | [], _, _ => []
  | p :: rest, spies, spyIdx =>
      if p.id ∈ spies then
        { id := p.id, name := p.name, role := "spy", spyNumber := some spyIdx,
          isLeader := false, nominated := false, voted := false,
          missionVote := none, confirmedRole := false }
          :: assignRolesGo rest spies (spyIdx + 1)
      else
        { id := p.id, name := p.name, role := "resistance", spyNumber := none,
          isLeader := false, nominated := false, voted := false,
          missionVote := none, confirmedRole := false }
          :: assignRolesGo rest spies spyIdx

/-- initGame (src/server.js lines 49-104). The two uses of `Math.random`
(the shuffle of the roster and the starting leader index) are outcomes of a
random source, so they are taken as parameters: `shuffled` is the shuffle
result whose first `spyCount` members become spies, `leaderIdx` the drawn
starting leader position. -/
def initGame (roster shuffled : List RoomPlayer) (leaderIdx : Nat) : Game :=
  let count := roster.length
  let spies := (shuffled.take (spyCountFor count)).map (fun p => p.id)
  let ps := assignRolesGo roster spies 1
  { players := setIdx ps leaderIdx (fun p => { p with isLeader := true }),
    phase := "roleReveal",
    currentMission := 1,
    missionSizes := getMissionSizes count,
    successfulMissions := 0,
    failedMissions := 0,
    currentLeaderIndex := (leaderIdx : Int),
    currentPlayerIndex := (leaderIdx : Int),
    discussionTurnCount := 0,
    discussionTimeLeft := 40,
    nominationTimeLeft := 80,
    tieTimeLeft := 0,
    nominatedPlayers := [],
    votes := [],
    missionTeam := [],
    missionVotes := [],
    missionResults := [],
    tieCandidates := [],
    isTieBreakerVote := false,
    gameOver := false,
    winner := none }

/-- checkAllRolesConfirmed (lines 107-118); the boolean return only selects
which broadcast runs, the state effect is the same either way. -/
def checkAllRolesConfirmed (g : Game) : Game :=
  if g.players.all (fun p => p.confirmedRole) then
    { g with phase := "discussion", discussionTimeLeft := 40,
             discussionTurnCount := 0,
             currentPlayerIndex := g.currentLeaderIndex }
  else g

/-- finalizeDiscussion (lines 120-151). All leader flags are cleared first
(line 124). Zero candidates: the starter at `currentLeaderIndex` retains
leadership (out-of-range index means `undefined.isLeader`, a crash). One
candidate: the candidate wins if a player by that name exists (`if (winner)`
guards the assignment, but `indexOf(undefined)` still stores -1). Two or
more: enter `voting` with ballots and voted flags cleared. -/
def finalizeDiscussion (g : Game) : StepResult :=
  match g.nominatedPlayers with
  | [] =>
      match getIdx (clearLeaders g.players) g.currentLeaderIndex with
      | none => .crash { g with players := clearLeaders g.players }
      | some _ =>
          .ok { g with
                players := setIdx (clearLeaders g.players) g.currentLeaderIndex.toNat
                  (fun p => { p with isLeader := true }),
                phase := "leaderDiscussion", discussionTimeLeft := 40,
                currentPlayerIndex := g.currentLeaderIndex,
                discussionTurnCount := 0 }
  | [c] =>
      match findIdxBy (clearLeaders g.players) (fun p => p.name == c) with
      | some j =>
          .ok { g with
                players := setIdx (clearLeaders g.players) j (fun p => { p with isLeader := true }),
                currentLeaderIndex := (j : Int),
                phase := "leaderDiscussion", discussionTimeLeft := 40,
                currentPlayerIndex := (j : Int),
                discussionTurnCount := 0 }
      | none =>
          .ok { g with
                players := clearLeaders g.players,
                currentLeaderIndex := -1,
                phase := "leaderDiscussion", discussionTimeLeft := 40,
                currentPlayerIndex := -1,
                discussionTurnCount := 0 }
  | _ =>
      .ok { g with
            players := (clearLeaders g.players).map (fun p => { p with voted := false }),
            phase := "voting", votes := [] }

/-- The second-tie forced winner (lines 196-197): `winners[0]`, overridden by
the starter's own ballot when that ballot names a tied candidate
(`includes(undefined)` is false when the starter cast no ballot). -/
def forcedWinner (winners : List String) (starterVote : Option String) : Option String :=
  match starterVote with
  | some sv => if winners.contains sv then some sv else winners.head?
  | none => winners.head?

/-- Fallback branch of processLeaderVote (lines 165-171): no votes at all and
no tie restriction; the starter keeps leadership without the other flags
being cleared or reset. -/
def pLVFallback (g : Game) : StepResult :=
  match getIdx g.players g.currentLeaderIndex with
  | none => .crash g
  | some _ =>
      .ok { g with
            players := setIdx g.players g.currentLeaderIndex.toNat
              (fun p => { p with isLeader := true }),
            phase := "leaderDiscussion", discussionTimeLeft := 40 }

/-- Single-winner branch of processLeaderVote (lines 173-187): clear all
leader flags, then look the winner up by name; a missing name crashes on
`leader.isLeader` with the flags already cleared and the phase unchanged. -/
def pLVSingle (g : Game) (wName : String) : StepResult :=
  match findIdxBy (clearLeaders g.players) (fun p => p.name == wName) with
  | none => .crash { g with players := clearLeaders g.players }
  | some j =>
      .ok { g with
            players := setIdx (clearLeaders g.players) j (fun p => { p with isLeader := true }),
            currentLeaderIndex := (j : Int), phase := "leaderDiscussion",
            discussionTimeLeft := 40, currentPlayerIndex := (j : Int),
            discussionTurnCount := 0, tieCandidates := [],
            isTieBreakerVote := false }

/-- Second-tie branch of processLeaderVote (lines 190-210): the starter is
read before any mutation (an invalid leader index crashes immediately), then
leader flags are cleared and the forced winner looked up by name. -/
def pLVSecondTie (g : Game) (winners : List String) : StepResult :=
  match getIdx g.players g.currentLeaderIndex with
  | none => .crash g
  | some starter =>
      match forcedWinner winners (lookupKey g.votes starter.id) with
      | none => .crash { g with players := clearLeaders g.players }
      | some w =>
          match findIdxBy (clearLeaders g.players) (fun p => p.name == w) with
          | none => .crash { g with players := clearLeaders g.players }
          | some j =>
              .ok { g with
                    players := setIdx (clearLeaders g.players) j (fun p => { p with isLeader := true }),
                    currentLeaderIndex := (j : Int), phase := "leaderDiscussion",
                    discussionTimeLeft := 40, currentPlayerIndex := (j : Int),
                    discussionTurnCount := 0, tieCandidates := [],
                    isTieBreakerVote := false }

/-- First-tie branch of processLeaderVote (lines 211-218). -/
def pLVFirstTie (g : Game) (winners : List String) : StepResult :=
  .ok { g with
        tieCandidates := winners, phase := "tieDiscussion",
        tieTimeLeft := 30 * winners.length, isTieBreakerVote := true }

/-- processLeaderVote (src/server.js lines 153-220). -/
def processLeaderVote (g : Game) : StepResult :=
  let winners := leaderVoteWinners g.votes
  if winners = [] ∧ g.tieCandidates = [] then pLVFallback g
  else if winners.length = 1 then pLVSingle g (winners.headD "")
  else if g.isTieBreakerVote then pLVSecondTie g winners
  else pLVFirstTie g winners

/-- The per-round reset at the top of nextMission (src/server.js lines
223-237): bump the mission counter, clear per-round player flags and all
per-round collections. -/
def nextMissionReset (g : Game) : Game :=
  { g with
    currentMission := g.currentMission + 1,
    players := g.players.map (fun p =>
      { p with nominated := false, voted := false, missionVote := none, isLeader := false }),
    nominatedPlayers := [], votes := [], missionTeam := [],
    missionVotes := [], tieCandidates := [], isTieBreakerVote := false }

/-- The rotated leader position `(currentLeaderIndex + 1) % players.length`
(line 240); the roster length is unchanged by the reset. -/
def nextLeaderIdx (g : Game) : Nat :=
  (g.currentLeaderIndex + 1).toNat % g.players.length

/-- nextMission (src/server.js lines 222-248): reset, then rotate leadership
to the next roster position. An empty roster (or a leader index below -1,
making the JavaScript `%` result negative) would make the
`players[nextIdx].isLeader` write a crash. -/
def nextMission (g : Game) : StepResult :=
  if (nextMissionReset g).players.length = 0 then .crash (nextMissionReset g)
  else if g.currentLeaderIndex + 1 < 0 then .crash (nextMissionReset g)
  else
    .ok { nextMissionReset g with
          currentLeaderIndex := (nextLeaderIdx g : Int),
          players := setIdx (nextMissionReset g).players (nextLeaderIdx g)
            (fun p => { p with isLeader := true }),
          phase := "discussion", currentPlayerIndex := (nextLeaderIdx g : Int),
          discussionTimeLeft := 40, discussionTurnCount := 0 }

/-- The MissionResult pushed by the team-selection timeout branch of the
scheduler (lines 289-294). -/
def timeoutResult (g : Game) : MissionResult :=
  { mission := g.currentMission, success := false, failCount := 0,
    successCount := none, note := some "Таймаут" }

/-- The end-of-turn advance shared by the timer path and the pass-turn path
(lines 269-280 and 494-505): with the turn counter already incremented,
either close the discussion round or move to the next speaker. -/
def advanceTurn (g1 : Game) : StepResult :=
  if g1.discussionTurnCount ≥ g1.players.length then
    if g1.phase = "leaderDiscussion" then
      .ok { g1 with phase := "missionTeamSelection", nominationTimeLeft := 80 }
    else finalizeDiscussion g1
  else
    .ok { g1 with
          currentPlayerIndex := (g1.currentPlayerIndex + 1).tmod (g1.players.length : Int),
          discussionTimeLeft := 40 }

/-- The state after the timeout branch has recorded the automatic fail
(lines 289-295). -/
def timeoutRecorded (g : Game) : Game :=
  { g with
    missionResults := g.missionResults ++ [timeoutResult g],
    failedMissions := g.failedMissions + 1 }

/-- One scheduler tick for one room (src/server.js lines 258-318). Rooms whose
match is over are skipped at the top of the loop (line 259). -/
def tick (g : Game) : StepResult :=
  if g.gameOver then .ok g
  else if g.phase = "discussion" ∨ g.phase = "leaderDiscussion" then
    if g.discussionTimeLeft > 0 then
      .ok { g with discussionTimeLeft := g.discussionTimeLeft - 1 }
    else
      advanceTurn { g with discussionTurnCount := g.discussionTurnCount + 1 }
  else if g.phase = "missionTeamSelection" then
    if g.nominationTimeLeft > 0 then
      .ok { g with nominationTimeLeft := g.nominationTimeLeft - 1 }
    else
      if (timeoutRecorded g).failedMissions ≥ 3 then
        .ok { timeoutRecorded g with
              gameOver := true, winner := some "spy", phase := "missionResults" }
      else nextMission (timeoutRecorded g)
  else if g.phase = "tieDiscussion" then
    if g.tieTimeLeft > 0 then
      .ok { g with tieTimeLeft := g.tieTimeLeft - 1 }
    else
      .ok { g with
            phase := "voting",
            players := g.players.map (fun p => { p with voted := false }),
            votes := [] }
  else .ok g

/-- The tagged player actions accepted by the `data.type === 'action'` message
handler (src/server.js lines 465-633). `passTurn` also stands for the
`passTurnLeaderDiscussion` tag, which the code dispatches to the same branch
(line 488). -/
inductive Action where
  | confirmRole
  | passTurn
  | nominate (target : String)
  | voteForLeader (candidate : String)
  | toggleTeamMember (target : String)
  | approveTeam
  | voteForMission (vote : String)
  | nextMission
deriving DecidableEq, Repr

/-- confirmRole branch (lines 474-485). -/
def handleConfirmRole (g : Game) (userId : String) : StepResult :=
  if g.phase = "roleReveal" then
    .ok (checkAllRolesConfirmed
      { g with
        players := updFirstById g.players userId (fun p => { p with confirmedRole := true }) })
  else .ok g

/-- passTurn branch (lines 488-509). `game.players[game.currentPlayerIndex].id`
is read unconditionally, so an invalid speaker index crashes before anything
is mutated. Note the branch checks no phase and no game-over flag. -/
def handlePassTurn (hostId : String) (g : Game) (userId : String) : StepResult :=
  match getIdx g.players g.currentPlayerIndex with
  | none => .crash g
  | some cur =>
      if cur.id = userId ∨ hostId = userId then
        advanceTurn { g with
                      discussionTimeLeft := 0,
                      discussionTurnCount := g.discussionTurnCount + 1 }
      else .ok g

/-- nominate branch (lines 512-529): toggle the target name in
`nominatedPlayers`; the target is not validated against the roster, the
`nominated` flag is only synced `if (p)` a player by that name exists. -/
def handleNominate (g : Game) (target : String) : StepResult :=
  if g.phase = "discussion" ∨ g.phase = "nomination" then
    if target ∈ g.nominatedPlayers then
      .ok { g with
            nominatedPlayers := g.nominatedPlayers.filter (fun n => n ≠ target),
            players := updFirstByName g.players target (fun p => { p with nominated := false }) }
    else
      .ok { g with
            nominatedPlayers := g.nominatedPlayers ++ [target],
            players := updFirstByName g.players target (fun p => { p with nominated := true }) }
  else .ok g

/-- The two recorded writes of an accepted leader ballot (lines 537-538):
`me.voted = true; game.votes[me.id] = act.candidate`. -/
def recordLeaderVote (g : Game) (userId candidate : String) : Game :=
  { g with
    players := updFirstById g.players userId (fun p => { p with voted := true }),
    votes := setKey g.votes userId candidate }

/-- voteForLeader branch (lines 532-545). -/
def handleVoteForLeader (g : Game) (me : Player) (userId candidate : String) : StepResult :=
  if g.phase = "voting" ∧ me.voted = false then
    if g.tieCandidates ≠ [] ∧ candidate ∉ g.tieCandidates then .ok g
    else
      if (recordLeaderVote g userId candidate).players.all (fun p => p.voted) then
        processLeaderVote (recordLeaderVote g userId candidate)
      else .ok (recordLeaderVote g userId candidate)
  else .ok g

/-- toggleTeamMember branch (lines 548-560). `missionSizes[currentMission-1]`
being out of range gives `undefined`, and `length < undefined` is false, so
nothing is added in that case. -/
def handleToggleTeamMember (g : Game) (me : Player) (target : String) : StepResult :=
  if g.phase = "missionTeamSelection" ∧ me.isLeader = true then
    if target ∈ g.missionTeam then
      .ok { g with missionTeam := g.missionTeam.filter (fun t => t ≠ target) }
    else
      match g.missionSizes.get? (g.currentMission - 1) with
      | some s =>
          if g.missionTeam.length < s then
            .ok { g with missionTeam := g.missionTeam ++ [target] }
          else .ok g
      | none => .ok g
  else .ok g

/-- approveTeam branch (lines 562-571). -/
def handleApproveTeam (g : Game) (me : Player) : StepResult :=
  if g.phase = "missionTeamSelection" ∧ me.isLeader = true then
    if g.missionSizes.get? (g.currentMission - 1) = some g.missionTeam.length then
      .ok { g with phase := "missionVoting" }
    else .ok g
  else .ok g

/-- The two recorded writes of an accepted mission ballot (lines 579-580):
`me.missionVote = act.vote; game.missionVotes[me.id] = act.vote`. -/
def recordMissionVote (g : Game) (userId vote : String) : Game :=
  { g with
    players := updFirstById g.players userId (fun p => { p with missionVote := some vote }),
    missionVotes := setKey g.missionVotes userId vote }

/-- The mission-success computation (lines 591-597): `failCount === 0`,
replaced by `failCount < 2` for mission 4 with 7 or more players. -/
def missionIsSuccess (g1 : Game) : Bool :=
  if 7 ≤ g1.players.length ∧ g1.currentMission = 4 then
    decide (countFails g1.missionVotes < 2)
  else
    decide (countFails g1.missionVotes = 0)

/-- The MissionResult pushed by the ballot resolution (lines 599-604). -/
def missionRecord (g1 : Game) : MissionResult :=
  { mission := g1.currentMission,
    success := missionIsSuccess g1,
    failCount := countFails g1.missionVotes,
    successCount := some (g1.missionTeam.length - countFails g1.missionVotes),
    note := none }

/-- The outcome-log append and counter increments (lines 599-607). -/
def applyOutcome (g1 : Game) : Game :=
  { g1 with
    missionResults := g1.missionResults ++ [missionRecord g1],
    successfulMissions :=
      if missionIsSuccess g1 then g1.successfulMissions + 1 else g1.successfulMissions,
    failedMissions :=
      if missionIsSuccess g1 then g1.failedMissions else g1.failedMissions + 1 }

/-- The game-over check (lines 609-615). -/
def applyGameOverCheck (g2 : Game) : Game :=
  if g2.successfulMissions ≥ 3 then
    { g2 with gameOver := true, winner := some "resistance" }
  else if g2.failedMissions ≥ 3 then
    { g2 with gameOver := true, winner := some "spy" }
  else g2

/-- The full resolution block run when the last team member's ballot lands
(lines 585-618). -/
def resolveMission (g1 : Game) : Game :=
  { applyGameOverCheck (applyOutcome g1) with phase := "missionResults" }

/-- voteForMission branch (lines 574-624), including the resistance cheat
check (line 577) and the mission resolution (lines 585-618). -/
def handleVoteForMission (g : Game) (me : Player) (userId vote : String) : StepResult :=
  if g.phase = "missionVoting" ∧ me.name ∈ g.missionTeam ∧ me.missionVote = none then
    if me.role = "resistance" ∧ vote = "fail" then .ok g
    else
      if (recordMissionVote g userId vote).missionVotes.length =
         (recordMissionVote g userId vote).missionTeam.length then
        .ok (resolveMission (recordMissionVote g userId vote))
      else .ok (recordMissionVote g userId vote)
  else .ok g

/-- nextMission action branch (lines 626-632). -/
def handleNextMission (g : Game) : StepResult :=
  if g.phase = "missionResults" ∧ g.gameOver = false then nextMission g
  else .ok g

/-- The `data.type === 'action'` message handler (src/server.js lines
465-633) for a room that has an active match: look the sender up in the
match roster (absent senders are ignored) and dispatch on the action tag. -/
def submitAction (hostId : String) (g : Game) (userId : String) (act : Action) : StepResult :=
  match g.players.find? (fun p => p.id == userId) with
  | none => .ok g
  | some me =>
      match act with
      | .confirmRole => handleConfirmRole g userId
      | .passTurn => handlePassTurn hostId g userId
      | .nominate target => handleNominate g target
      | .voteForLeader candidate => handleVoteForLeader g me userId candidate
      | .toggleTeamMember target => handleToggleTeamMember g me target
      | .approveTeam => handleApproveTeam g me
      | .voteForMission vote => handleVoteForMission g me userId vote
      | .nextMission => handleNextMission g

/-- Fellow-spy roster entry of the side-channel `msg.spies`
(src/server.js line 357). -/
structure SpyInfo where
  id : String
  name : String
  spyNumber : Option Nat
deriving DecidableEq, Repr

/-- The per-viewer message assembled by `broadcastGameState`. -/
structure GameMsg where
  game : Game
  you : Player
  spies : Option (List SpyInfo)
deriving DecidableEq, Repr

/-- The `spies` roster computed once per broadcast (line 357). -/
def spiesOf (g : Game) : List SpyInfo :=
  (g.players.filter (fun p => p.role == "spy")).map
    (fun p => { id := p.id, name := p.name, spyNumber := p.spyNumber })

/-- The per-viewer projection of `broadcastGameState` (src/server.js lines
355-375): every player other than the viewer is masked (`role` becomes
'unknown', `spyNumber` and `missionVote` become null), the viewer's own entry
is sent unmasked, and the `spies` side-channel is attached exactly when the
viewer's role is 'spy'. -/
def gameMsgFor (g : Game) (viewer : Player) : GameMsg :=
  { game := { g with
              players := g.players.map (fun pl =>
                if pl.id == viewer.id then pl
                else { pl with role := "unknown", spyNumber := none, missionVote := none }) },
    you := viewer,
    spies := if viewer.role = "spy" then some (spiesOf g) else none }

/-- An externally observable event: a player action or one scheduler tick. -/
inductive Event where
  | act (userId : String) (a : Action)
  | tickEv
deriving DecidableEq, Repr

/-- Apply one event to the room's match. For actions, a thrown exception is
caught by the message handler's try/catch (line 635-637), so the room keeps
the partially mutated state; the traces below never crash inside a tick. -/
def stepGame (hostId : String) (g : Game) (e : Event) : Game :=
  match e with
  | .act uid a => resState (submitAction hostId g uid a)
  | .tickEv => resState (tick g)

/-- Replay a list of events against a match. -/
def runTrace (hostId : String) (g : Game) (es : List Event) : Game :=
  es.foldl (stepGame hostId) g

/-- The fail threshold exactly as the specification words it: 2 for the
mission at index 4 when the roster size is at least 7, and 1 for every other
mission and roster size. Stated from the spec to compare against the
resolution computed by `handleVoteForMission`. -/
def specFailThreshold (g : Game) : Nat :=
  if g.currentMission = 4 ∧ 7 ≤ g.players.length then 2 else 1

/-- A five-player room roster used by the concrete executions below. -/
def roster5 : List RoomPlayer :=
  [⟨"a", "A"⟩, ⟨"b", "B"⟩, ⟨"c", "C"⟩, ⟨"d", "D"⟩, ⟨"e", "E"⟩]

/-- Concrete match start: five players, the identity shuffle (players a and b
become the spies), starting leader index 0 (player a). Host is player a. -/
def g5 : Game := initGame roster5 roster5 0

/-- Events reaching the `voting` phase: every player confirms their role,
player a nominates B and C during discussion, then the host passes the turn
five times, exhausting the round so `finalizeDiscussion` runs with two
candidates and enters `voting`. -/
def votingTrace : List Event :=
  [ .act "a" .confirmRole, .act "b" .confirmRole, .act "c" .confirmRole,
    .act "d" .confirmRole, .act "e" .confirmRole,
    .act "a" (.nominate "B"), .act "a" (.nominate "C"),
    .act "a" .passTurn, .act "a" .passTurn, .act "a" .passTurn,
    .act "a" .passTurn, .act "a" .passTurn ]

/-- The reachable state at the start of the `voting` phase. -/
def votingState : Game := runTrace "a" g5 votingTrace

/-- The reachable state in which players a-d have each voted for the name
'ghost', which matches no player; tieCandidates is empty, so the handler
accepted the ballots unvalidated. -/
def ghostVotesState : Game :=
  runTrace "a" votingState
    [ .act "a" (.voteForLeader "ghost"), .act "b" (.voteForLeader "ghost"),
      .act "c" (.voteForLeader "ghost"), .act "d" (.voteForLeader "ghost") ]

/-- Events of one full round with no nominations: the discussion round is
passed through, the starter retains leadership, the leader-discussion round
is passed through into team selection. -/
def passRound : List Event :=
  [ .act "a" .passTurn, .act "a" .passTurn, .act "a" .passTurn,
    .act "a" .passTurn, .act "a" .passTurn,
    .act "a" .passTurn, .act "a" .passTurn, .act "a" .passTurn,
    .act "a" .passTurn, .act "a" .passTurn ]

/-- The reachable state at the first `missionTeamSelection` phase of the
five-player match (all roles confirmed, both discussion rounds exhausted by
host passes, no nominations). -/
def teamSelState : Game :=
  runTrace "a" g5
    ([ .act "a" .confirmRole, .act "b" .confirmRole, .act "c" .confirmRole,
       .act "d" .confirmRole, .act "e" .confirmRole ] ++ passRound)

/-- The reachable `missionTeamSelection` state whose selection timer has run
down to zero (80 scheduler ticks). -/
def timedOutSelState : Game :=
  runTrace "a" teamSelState (List.replicate 80 .tickEv)

/-- Events of one mission in which the two spies A and B are sent and both
sabotage, then the next mission is started. The target names and the two
mission ballots match the mission-1 and mission-3 team size of 2. -/
def failMission2 (leaderId : String) : List Event :=
  [ .act leaderId (.toggleTeamMember "A"), .act leaderId (.toggleTeamMember "B"),
    .act leaderId .approveTeam,
    .act "a" (.voteForMission "fail"), .act "b" (.voteForMission "fail") ]

/-- A complete reachable playthrough of the five-player match in which three
missions fail (spies always sabotage), ending with `gameOver=true`,
`winner='spy'` and phase `missionResults`. -/
def gameOverState : Game :=
  runTrace "a" g5
    ([ .act "a" .confirmRole, .act "b" .confirmRole, .act "c" .confirmRole,
       .act "d" .confirmRole, .act "e" .confirmRole ]
     ++ passRound ++ failMission2 "a" ++ [.act "a" .nextMission]
     ++ passRound
     ++ [ .act "b" (.toggleTeamMember "A"), .act "b" (.toggleTeamMember "B"),
          .act "b" (.toggleTeamMember "C"), .act "b" .approveTeam,
          .act "a" (.voteForMission "fail"), .act "b" (.voteForMission "fail"),
          .act "c" (.voteForMission "success") ]
     ++ [.act "a" .nextMission]
     ++ passRound ++ failMission2 "c")

/-- A six-player room roster. -/
def roster6 : List RoomPlayer :=
  [⟨"a", "A"⟩, ⟨"b", "B"⟩, ⟨"c", "C"⟩, ⟨"d", "D"⟩, ⟨"e", "E"⟩, ⟨"f", "F"⟩]

/-- Concrete six-player match start (identity shuffle, leader index 0). -/
def g6 : Game := initGame roster6 roster6 0

/-- A reachable second-tie election state: the names gA and gB — matching no
player — are nominated and tie 3-3 in the unrestricted first ballot, the tie
discussion times out, and five of the six restricted revotes are in, again
heading for a 3-3 tie. -/
def secondTieState : Game :=
  runTrace "a" g6
    ([ .act "a" .confirmRole, .act "b" .confirmRole, .act "c" .confirmRole,
       .act "d" .confirmRole, .act "e" .confirmRole, .act "f" .confirmRole,
       .act "a" (.nominate "gA"), .act "a" (.nominate "gB"),
       .act "a" .passTurn, .act "a" .passTurn, .act "a" .passTurn,
       .act "a" .passTurn, .act "a" .passTurn, .act "a" .passTurn,
       .act "a" (.voteForLeader "gA"), .act "b" (.voteForLeader "gA"),
       .act "c" (.voteForLeader "gA"), .act "d" (.voteForLeader "gB"),
       .act "e" (.voteForLeader "gB"), .act "f" (.voteForLeader "gB") ]
     ++ List.replicate 61 .tickEv
     ++ [ .act "a" (.voteForLeader "gA"), .act "b" (.voteForLeader "gA"),
          .act "c" (.voteForLeader "gA"), .act "d" (.voteForLeader "gB"),
          .act "e" (.voteForLeader "gB") ])

/-- The reachable `missionVoting` state of the five-player match with the
spies A and B on the team and A's sabotage ballot already recorded. -/
def missionVotingState : Game :=
  runTrace "a" teamSelState
    [ .act "a" (.toggleTeamMember "A"), .act "a" (.toggleTeamMember "B"),
      .act "a" .approveTeam, .act "a" (.voteForMission "fail") ]

/-- The reachable `missionVoting` state of mission 2 (team size 3): mission 1
failed through spy sabotage, leadership rotated to player b, and b sent the
team A, B, C — so the resistance player C is a team member with no recorded
ballot. -/
def mission2VotingState : Game :=
  runTrace "a" g5
    ([ .act "a" .confirmRole, .act "b" .confirmRole, .act "c" .confirmRole,
       .act "d" .confirmRole, .act "e" .confirmRole ]
     ++ passRound ++ failMission2 "a" ++ [.act "a" .nextMission]
     ++ passRound
     ++ [ .act "b" (.toggleTeamMember "A"), .act "b" (.toggleTeamMember "B"),
          .act "b" (.toggleTeamMember "C"), .act "b" .approveTeam ])

/-- Player a as it stands in `ghostVotesState`: a live voting phase with a's
leader ballot already accepted (`voted` set). -/
def votedGhostA : Player :=
  { id := "a", name := "A", role := "spy", spyNumber := some 1,
    isLeader := false, nominated := false, voted := true,
    missionVote := none, confirmedRole := true }

/-- Player a as it stands in `missionVotingState`: a live missionVoting
phase with a's sabotage ballot already recorded. -/
def missionVotedA : Player :=
  { id := "a", name := "A", role := "spy", spyNumber := some 1,
    isLeader := true, nominated := false, voted := false,
    missionVote := some "fail", confirmedRole := true }

/-- Player a as it stands in the finished match `gameOverState`. -/
def finishedA : Player :=
  { id := "a", name := "A", role := "spy", spyNumber := some 1,
    isLeader := false, nominated := false, voted := false,
    missionVote := some "fail", confirmedRole := true }

/-- The six-player first election with ballots split 3-3 between the
non-player names gA and gB, one ballot short of completion. -/
def fiveFirstVotesState : Game :=
  runTrace "a" g6
    [ .act "a" .confirmRole, .act "b" .confirmRole, .act "c" .confirmRole,
      .act "d" .confirmRole, .act "e" .confirmRole, .act "f" .confirmRole,
      .act "a" (.nominate "gA"), .act "a" (.nominate "gB"),
      .act "a" .passTurn, .act "a" .passTurn, .act "a" .passTurn,
      .act "a" .passTurn, .act "a" .passTurn, .act "a" .passTurn,
      .act "a" (.voteForLeader "gA"), .act "b" (.voteForLeader "gA"),
      .act "c" (.voteForLeader "gA"), .act "d" (.voteForLeader "gB"),
      .act "e" (.voteForLeader "gB") ]

/-- The completed 3-3 first-ballot tally input: the state passed to
`processLeaderVote` when player f's ballot lands. -/
def firstTieTallyState : Game := recordLeaderVote fiveFirstVotesState "f" "gB"

/-- Like `secondTieState` but with the real player names A and B as the tied
candidates, five of the six restricted revotes in. -/
def secondTieRealState : Game :=
  runTrace "a" g6
    ([ .act "a" .confirmRole, .act "b" .confirmRole, .act "c" .confirmRole,
       .act "d" .confirmRole, .act "e" .confirmRole, .act "f" .confirmRole,
       .act "a" (.nominate "A"), .act "a" (.nominate "B"),
       .act "a" .passTurn, .act "a" .passTurn, .act "a" .passTurn,
       .act "a" .passTurn, .act "a" .passTurn, .act "a" .passTurn,
       .act "a" (.voteForLeader "A"), .act "b" (.voteForLeader "A"),
       .act "c" (.voteForLeader "A"), .act "d" (.voteForLeader "B"),
       .act "e" (.voteForLeader "B"), .act "f" (.voteForLeader "B") ]
     ++ List.replicate 61 .tickEv
     ++ [ .act "a" (.voteForLeader "A"), .act "b" (.voteForLeader "A"),
          .act "c" (.voteForLeader "A"), .act "d" (.voteForLeader "B"),
          .act "e" (.voteForLeader "B") ])

/-- The completed 3-3 second-ballot tally input with real-name candidates. -/
def secondTieRealTallyState : Game := recordLeaderVote secondTieRealState "f" "B"

/-- The six-player tie discussion with its timer run down to zero. -/
def tieTimeoutState : Game :=
  runTrace "a" g6
    ([ .act "a" .confirmRole, .act "b" .confirmRole, .act "c" .confirmRole,
       .act "d" .confirmRole, .act "e" .confirmRole, .act "f" .confirmRole,
       .act "a" (.nominate "gA"), .act "a" (.nominate "gB"),
       .act "a" .passTurn, .act "a" .passTurn, .act "a" .passTurn,
       .act "a" .passTurn, .act "a" .passTurn, .act "a" .passTurn,
       .act "a" (.voteForLeader "gA"), .act "b" (.voteForLeader "gA"),
       .act "c" (.voteForLeader "gA"), .act "d" (.voteForLeader "gB"),
       .act "e" (.voteForLeader "gB"), .act "f" (.voteForLeader "gB") ]
     ++ List.replicate 60 .tickEv)

/-- The five-player election with the real name B about to receive all five
ballots: the state passed to `processLeaderVote` when player e's ballot
lands. -/
def singleWinnerTallyState : Game :=
  recordLeaderVote
    (runTrace "a" votingState
      [ .act "a" (.voteForLeader "B"), .act "b" (.voteForLeader "B"),
        .act "c" (.voteForLeader "B"), .act "d" (.voteForLeader "B") ])
    "e" "B"

/-- Player a of the freshly started five-player match (spy 1, starting
leader). -/
def pA : Player :=
  { id := "a", name := "A", role := "spy", spyNumber := some 1,
    isLeader := true, nominated := false, voted := false,
    missionVote := none, confirmedRole := false }

/-- Player c of the freshly started five-player match (resistance). -/
def pC : Player :=
  { id := "c", name := "C", role := "resistance", spyNumber := none,
    isLeader := false, nominated := false, voted := false,
    missionVote := none, confirmedRole := false }

/-- The masked rendering of player b as delivered to any other viewer of the
freshly started five-player match. -/
def maskedB : Player :=
  { id := "b", name := "B", role := "unknown", spyNumber := none,
    isLeader := false, nominated := false, voted := false,
    missionVote := none, confirmedRole := false }

/-- Player a (the original starting leader) as it stands in
`secondTieRealTallyState`. -/
def starterA : Player :=
  { id := "a", name := "A", role := "spy", spyNumber := some 1,
    isLeader := false, nominated := true, voted := true,
    missionVote := none, confirmedRole := true }

/-! ## Helper lemmas -/

theorem updFirstById_length (l : List Player) (pid : String) (f : Player → Player) :
    (updFirstById l pid f).length = l.length := by
  induction l with
  | nil => rfl
  | cons p rest ih => simp only [updFirstById]; split <;> simp [ih]

theorem clearLeaders_length (l : List Player) : (clearLeaders l).length = l.length := by
  simp [clearLeaders]

theorem countLeaders_clearLeaders (l : List Player) : countLeaders (clearLeaders l) = 0 := by
  induction l with
  | nil => rfl
  | cons p rest ih =>
      simp only [clearLeaders, List.map_cons, countLeaders, List.countP_cons] at *
      simp [ih]

theorem countLeaders_votedReset (l : List Player) :
    countLeaders (l.map (fun p => { p with voted := false })) = countLeaders l := by
  induction l with
  | nil => rfl
  | cons p rest ih =>
      simp only [List.map_cons, countLeaders, List.countP_cons] at *
      simp [ih]

theorem countLeaders_cons (p : Player) (l : List Player) :
    countLeaders (p :: l) = countLeaders l + (if p.isLeader then 1 else 0) := by
  simp [countLeaders, List.countP_cons]

theorem countLeaders_setIdx_true (l : List Player) (j : Nat)
    (hj : j < l.length) (h0 : countLeaders l = 0) :
    countLeaders (setIdx l j (fun p => { p with isLeader := true })) = 1 := by
  induction l generalizing j with
  | nil => simp at hj
  | cons p rest ih =>
      rw [countLeaders_cons] at h0
      have hrest : countLeaders rest = 0 := by omega
      cases j with
      | zero => simp [setIdx, countLeaders_cons, hrest]
      | succ j' =>
          have hp : ¬ p.isLeader := by
            intro hl
            simp [hl] at h0
          have hj' : j' < rest.length := by simpa using hj
          simp [setIdx, countLeaders_cons, ih j' hj' hrest, hp]

theorem findIdxBy_lt (l : List Player) (f : Player → Bool) (j : Nat)
    (h : findIdxBy l f = some j) : j < l.length := by
  induction l generalizing j with
  | nil => simp [findIdxBy] at h
  | cons p rest ih =>
      simp only [findIdxBy] at h
      split at h
      · simp at h
        simp only [List.length_cons]
        omega
      · cases hr : findIdxBy rest f with
        | none => rw [hr] at h; simp at h
        | some j' =>
            rw [hr] at h
            simp at h
            have := ih j' hr
            simp only [List.length_cons]
            omega

theorem findIdxBy_get (l : List Player) (f : Player → Bool) (j : Nat)
    (h : findIdxBy l f = some j) : ∃ p, l.get? j = some p ∧ f p = true := by
  induction l generalizing j with
  | nil => simp [findIdxBy] at h
  | cons p rest ih =>
      simp only [findIdxBy] at h
      split at h
      · next hf =>
          simp at h
          exact ⟨p, by simp [← h], hf⟩
      · cases hr : findIdxBy rest f with
        | none => rw [hr] at h; simp at h
        | some j' =>
            rw [hr] at h
            simp at h
            obtain ⟨q, hq, hfq⟩ := ih j' hr
            refine ⟨q, ?_, hfq⟩
            simp only [← h, List.get?_cons_succ]
            exact hq

theorem get?_setIdx_self (l : List Player) (j : Nat) (f : Player → Player) :
    (setIdx l j f).get? j = (l.get? j).map f := by
  induction l generalizing j with
  | nil => simp [setIdx]
  | cons p rest ih =>
      cases j with
      | zero => simp [setIdx]
      | succ j' => simpa [setIdx] using ih j'

theorem submitAction_none (hostId uid : String) (g : Game) (act : Action)
    (hme : g.players.find? (fun p => p.id == uid) = none) :
    submitAction hostId g uid act = .ok g := by
  unfold submitAction; rw [hme]

theorem submitAction_confirmRole (hostId uid : String) (g : Game) (me : Player)
    (hme : g.players.find? (fun p => p.id == uid) = some me) :
    submitAction hostId g uid .confirmRole = handleConfirmRole g uid := by
  unfold submitAction; rw [hme]

theorem submitAction_passTurn (hostId uid : String) (g : Game) (me : Player)
    (hme : g.players.find? (fun p => p.id == uid) = some me) :
    submitAction hostId g uid .passTurn = handlePassTurn hostId g uid := by
  unfold submitAction; rw [hme]

theorem submitAction_nominate (hostId uid t : String) (g : Game) (me : Player)
    (hme : g.players.find? (fun p => p.id == uid) = some me) :
    submitAction hostId g uid (.nominate t) = handleNominate g t := by
  unfold submitAction; rw [hme]

theorem submitAction_voteForLeader (hostId uid c : String) (g : Game) (me : Player)
    (hme : g.players.find? (fun p => p.id == uid) = some me) :
    submitAction hostId g uid (.voteForLeader c) = handleVoteForLeader g me uid c := by
  unfold submitAction; rw [hme]

theorem submitAction_toggleTeamMember (hostId uid t : String) (g : Game) (me : Player)
    (hme : g.players.find? (fun p => p.id == uid) = some me) :
    submitAction hostId g uid (.toggleTeamMember t) = handleToggleTeamMember g me t := by
  unfold submitAction; rw [hme]

theorem submitAction_approveTeam (hostId uid : String) (g : Game) (me : Player)
    (hme : g.players.find? (fun p => p.id == uid) = some me) :
    submitAction hostId g uid .approveTeam = handleApproveTeam g me := by
  unfold submitAction; rw [hme]

theorem submitAction_voteForMission (hostId uid v : String) (g : Game) (me : Player)
    (hme : g.players.find? (fun p => p.id == uid) = some me) :
    submitAction hostId g uid (.voteForMission v) = handleVoteForMission g me uid v := by
  unfold submitAction; rw [hme]

theorem submitAction_nextMission (hostId uid : String) (g : Game) (me : Player)
    (hme : g.players.find? (fun p => p.id == uid) = some me) :
    submitAction hostId g uid .nextMission = handleNextMission g := by
  unfold submitAction; rw [hme]

/-! ## Claim theorems -/

/-- C5: whenever a player whose role is resistance submits voteForMission
with vote=fail, the action is rejected: the match state is unchanged (and in
particular the ballot is not recorded in the mission ballots). The cheat
check at src/server.js line 577 returns before either write of lines
579-580. -/
theorem C5_resistance_fail_rejected (hostId uid : String) (g : Game) (me : Player)
    (hme : g.players.find? (fun p => p.id == uid) = some me)
    (hrole : me.role = "resistance") :
    submitAction hostId g uid (.voteForMission "fail") = .ok g := by
  rw [submitAction_voteForMission hostId uid "fail" g me hme]
  unfold handleVoteForMission
  by_cases h1 : g.phase = "missionVoting" ∧ me.name ∈ g.missionTeam ∧ me.missionVote = none
  · rw [if_pos h1, if_pos ⟨hrole, rfl⟩]
  · rw [if_neg h1]

/-- Witness for C5 at a concrete reachable state: the resistance player c is
on the mission-2 team of a live `missionVoting` phase, so only the cheat
check rejects the ballot. -/
theorem C5_witness :
    submitAction "a" mission2VotingState "c" (.voteForMission "fail") = .ok mission2VotingState :=
  C5_resistance_fail_rejected "a" "c" mission2VotingState
    { id := "c", name := "C", role := "resistance", spyNumber := none,
      isLeader := false, nominated := false, voted := false,
      missionVote := none, confirmedRole := true }
    (by decide) (by decide)

/-- C9: duplicate submissions are idempotent, each independently of the
others — re-delivering a leader ballot from any player whose voted flag is
already set (guard at src/server.js line 533), re-delivering a mission
ballot from any player whose missionVote is already recorded (line 575), and
re-sending nextMission on any match with gameOver set (line 627) each leave
the match state unchanged. -/
theorem C9_duplicates_idempotent :
    (∀ (hostId uid c : String) (g : Game) (me : Player),
      g.players.find? (fun p => p.id == uid) = some me → me.voted = true →
      submitAction hostId g uid (.voteForLeader c) = .ok g) ∧
    (∀ (hostId uid v : String) (g : Game) (me : Player),
      g.players.find? (fun p => p.id == uid) = some me → me.missionVote ≠ none →
      submitAction hostId g uid (.voteForMission v) = .ok g) ∧
    (∀ (hostId uid : String) (g : Game) (me : Player),
      g.players.find? (fun p => p.id == uid) = some me → g.gameOver = true →
      submitAction hostId g uid .nextMission = .ok g) := by
  refine ⟨?_, ?_, ?_⟩
  · intro hostId uid c g me hme hvoted
    rw [submitAction_voteForLeader hostId uid c g me hme]
    unfold handleVoteForLeader
    rw [if_neg (fun h => by rw [hvoted] at h; exact absurd h.2 (by decide))]
  · intro hostId uid v g me hme hmv
    rw [submitAction_voteForMission hostId uid v g me hme]
    unfold handleVoteForMission
    rw [if_neg (fun h => hmv h.2.2)]
  · intro hostId uid g me hme hover
    rw [submitAction_nextMission hostId uid g me hme]
    unfold handleNextMission
    rw [if_neg (fun h => by rw [hover] at h; exact absurd h.2 (by decide))]

/-- Witness for C9, each conjunct at a concrete state where its duplicate
guard is the operative check: player a re-delivers its leader ballot in the
live voting phase of `ghostVotesState` (gameOver false, phase guard passes,
only `!me.voted` rejects); a re-delivers its recorded sabotage ballot on the
live `missionVoting` phase of `missionVotingState` while on the mission team
(only the `missionVote === null` guard rejects); and nextMission is re-sent
on the finished `gameOverState`, whose phase is missionResults, so only the
`!game.gameOver` conjunct rejects. -/
theorem C9_witness :
    submitAction "a" ghostVotesState "a" (.voteForLeader "ghost") = .ok ghostVotesState ∧
    submitAction "a" missionVotingState "a" (.voteForMission "fail") = .ok missionVotingState ∧
    submitAction "a" gameOverState "a" .nextMission = .ok gameOverState :=
  ⟨C9_duplicates_idempotent.1 "a" "a" "ghost" ghostVotesState votedGhostA
      (by decide) (by decide),
   C9_duplicates_idempotent.2.1 "a" "a" "fail" missionVotingState missionVotedA
      (by decide) (by decide),
   C9_duplicates_idempotent.2.2 "a" "a" gameOverState finishedA
      (by decide) (by decide)⟩

theorem countLeaders_roundReset (l : List Player) :
    countLeaders (l.map (fun p =>
      { p with nominated := false, voted := false, missionVote := none,
               isLeader := false })) = 0 := by
  induction l with
  | nil => rfl
  | cons p rest ih =>
      simp only [List.map_cons, countLeaders, List.countP_cons] at *
      simp [ih]

theorem handleVoteForMission_resolves (g : Game) (me : Player) (uid v : String)
    (h1 : g.phase = "missionVoting" ∧ me.name ∈ g.missionTeam ∧ me.missionVote = none)
    (h2 : ¬(me.role = "resistance" ∧ v = "fail"))
    (hfull : (setKey g.missionVotes uid v).length = g.missionTeam.length) :
    handleVoteForMission g me uid v = .ok (resolveMission (recordMissionVote g uid v)) := by
  unfold handleVoteForMission
  rw [if_pos h1, if_neg h2,
    if_pos (show (recordMissionVote g uid v).missionVotes.length =
      (recordMissionVote g uid v).missionTeam.length from hfull)]

theorem resolveMission_missionResults (g1 : Game) :
    (resolveMission g1).missionResults = g1.missionResults ++ [missionRecord g1] := by
  unfold resolveMission applyGameOverCheck
  split
  · rfl
  · split <;> rfl

theorem resolveMission_phase (g1 : Game) :
    (resolveMission g1).phase = "missionResults" := rfl

theorem resolveMission_currentMission (g1 : Game) :
    (resolveMission g1).currentMission = g1.currentMission := by
  unfold resolveMission applyGameOverCheck
  split
  · rfl
  · split <;> rfl

theorem missionIsSuccess_iff (g1 : Game) :
    missionIsSuccess g1 = true ↔
      countFails g1.missionVotes <
        (if g1.currentMission = 4 ∧ 7 ≤ g1.players.length then 2 else 1) := by
  unfold missionIsSuccess
  by_cases h : 7 ≤ g1.players.length ∧ g1.currentMission = 4
  · rw [if_pos h, if_pos ⟨h.2, h.1⟩]
    simp
  · rw [if_neg h, if_neg (fun hb => h ⟨hb.2, hb.1⟩)]
    simp [Nat.lt_one_iff]

/-- C1 counterexample: in the reachable finished match `gameOverState`
(isOver=true, phase missionResults after three failed missions), a passTurn
submitted by the host is not rejected — the action handler's entry check
(src/server.js lines 465-471) never consults `gameOver` and the passTurn
branch (lines 488-509) checks no phase, so the finished match is mutated,
here all the way into a fresh `leaderDiscussion` phase via
`finalizeDiscussion`. -/
theorem C1_counterexample :
    gameOverState.gameOver = true ∧
    gameOverState.phase = "missionResults" ∧
    submitAction "a" gameOverState "a" .passTurn ≠ .ok gameOverState ∧
    (resState (submitAction "a" gameOverState "a" .passTurn)).phase = "leaderDiscussion" := by
  refine ⟨by decide, by decide, by decide, by decide⟩

/-- C1 amended: with isOver=true and phase missionResults (the only phase in
which the code sets isOver), every submitted action other than passTurn —
confirmRole, nominate, voteForLeader, toggleTeamMember, approveTeam,
voteForMission, nextMission — is rejected as a no-op; a passTurn from the
current speaker or the host still mutates the finished match. -/
theorem C1_amended_rejected_except_passTurn (hostId uid : String) (g : Game) (act : Action)
    (hover : g.gameOver = true) (hphase : g.phase = "missionResults")
    (hact : act ≠ .passTurn) :
    submitAction hostId g uid act = .ok g := by
  cases hfind : g.players.find? (fun p => p.id == uid) with
  | none => exact submitAction_none hostId uid g act hfind
  | some me =>
      cases act with
      | confirmRole =>
          rw [submitAction_confirmRole hostId uid g me hfind]
          unfold handleConfirmRole
          rw [hphase, if_neg (by decide)]
      | passTurn => exact absurd rfl hact
      | nominate t =>
          rw [submitAction_nominate hostId uid t g me hfind]
          unfold handleNominate
          rw [hphase, if_neg (by decide)]
      | voteForLeader c =>
          rw [submitAction_voteForLeader hostId uid c g me hfind]
          unfold handleVoteForLeader
          rw [if_neg (fun h => by rw [hphase] at h; exact absurd h.1 (by decide))]
      | toggleTeamMember t =>
          rw [submitAction_toggleTeamMember hostId uid t g me hfind]
          unfold handleToggleTeamMember
          rw [if_neg (fun h => by rw [hphase] at h; exact absurd h.1 (by decide))]
      | approveTeam =>
          rw [submitAction_approveTeam hostId uid g me hfind]
          unfold handleApproveTeam
          rw [if_neg (fun h => by rw [hphase] at h; exact absurd h.1 (by decide))]
      | voteForMission v =>
          rw [submitAction_voteForMission hostId uid v g me hfind]
          unfold handleVoteForMission
          rw [if_neg (fun h => by rw [hphase] at h; exact absurd h.1 (by decide))]
      | nextMission =>
          rw [submitAction_nextMission hostId uid g me hfind]
          unfold handleNextMission
          rw [if_neg (fun h => by rw [hover] at h; exact absurd h.2 (by decide))]

/-- Witness for the amended C1: on the finished match, a voteForLeader, a
nominate and a nextMission are all no-ops. -/
theorem C1_amended_witness :
    submitAction "a" gameOverState "a" (.voteForLeader "B") = .ok gameOverState ∧
    submitAction "a" gameOverState "b" (.nominate "C") = .ok gameOverState ∧
    submitAction "a" gameOverState "a" .nextMission = .ok gameOverState :=
  ⟨C1_amended_rejected_except_passTurn "a" "a" gameOverState (.voteForLeader "B")
      (by decide) (by decide) (by decide),
   C1_amended_rejected_except_passTurn "a" "b" gameOverState (.nominate "C")
      (by decide) (by decide) (by decide),
   C1_amended_rejected_except_passTurn "a" "a" gameOverState .nextMission
      (by decide) (by decide) (by decide)⟩

/-- C3: for every completed mission ballot — an accepted mission vote whose
recording makes the ballot count reach the team size — the mission is
recorded as success if and only if the number of fail ballots is strictly
below the required threshold, where the threshold is 2 for the mission at
index 4 when the roster size is at least 7 (`specFailThreshold`), and 1 for
every other mission and roster size (src/server.js lines 585-604). -/
theorem C3_success_iff_below_threshold (hostId uid v : String) (g : Game) (me : Player)
    (hme : g.players.find? (fun p => p.id == uid) = some me)
    (hphase : g.phase = "missionVoting") (hmem : me.name ∈ g.missionTeam)
    (hmv : me.missionVote = none)
    (hch : ¬(me.role = "resistance" ∧ v = "fail"))
    (hfull : (setKey g.missionVotes uid v).length = g.missionTeam.length) :
    ∃ g', submitAction hostId g uid (.voteForMission v) = .ok g' ∧
      g'.missionResults = g.missionResults ++ [missionRecord (recordMissionVote g uid v)] ∧
      (missionRecord (recordMissionVote g uid v)).failCount
        = countFails (setKey g.missionVotes uid v) ∧
      ((missionRecord (recordMissionVote g uid v)).success = true ↔
        (missionRecord (recordMissionVote g uid v)).failCount < specFailThreshold g) := by
  refine ⟨resolveMission (recordMissionVote g uid v), ?_, ?_, rfl, ?_⟩
  · rw [submitAction_voteForMission hostId uid v g me hme]
    exact handleVoteForMission_resolves g me uid v ⟨hphase, hmem, hmv⟩ hch hfull
  · rw [resolveMission_missionResults]
    rfl
  · show missionIsSuccess (recordMissionVote g uid v) = true ↔
      countFails (recordMissionVote g uid v).missionVotes < specFailThreshold g
    rw [missionIsSuccess_iff,
      show (recordMissionVote g uid v).players.length = g.players.length from
        updFirstById_length g.players uid (fun p => { p with missionVote := some v }),
      show (recordMissionVote g uid v).currentMission = g.currentMission from rfl]
    unfold specFailThreshold
    exact Iff.rfl

/-- Witness for C3: player b's sabotage ballot completes the 2-member mission-1
ballot of the five-player match; threshold 1, failCount 2, recorded as fail. -/
theorem C3_witness :
    ∃ g', submitAction "a" missionVotingState "b" (.voteForMission "fail") = .ok g' ∧
      g'.missionResults = missionVotingState.missionResults ++
        [missionRecord (recordMissionVote missionVotingState "b" "fail")] ∧
      (missionRecord (recordMissionVote missionVotingState "b" "fail")).failCount
        = countFails (setKey missionVotingState.missionVotes "b" "fail") ∧
      ((missionRecord (recordMissionVote missionVotingState "b" "fail")).success = true ↔
        (missionRecord (recordMissionVote missionVotingState "b" "fail")).failCount
          < specFailThreshold missionVotingState) :=
  C3_success_iff_below_threshold "a" "b" "fail" missionVotingState
    { id := "b", name := "B", role := "spy", spyNumber := some 2,
      isLeader := false, nominated := false, voted := false,
      missionVote := none, confirmedRole := true }
    (by decide) (by decide) (by decide) (by decide) (by decide) (by decide)

theorem tick_missionResults_noop (g : Game) (hphase : g.phase = "missionResults") :
    tick g = .ok g := by
  unfold tick
  by_cases ho : g.gameOver = true
  · rw [if_pos ho]
  · rw [if_neg ho, hphase, if_neg (by decide), if_neg (by decide), if_neg (by decide)]

theorem tick_timeout_auto_advance (g : Game)
    (hover : g.gameOver = false) (hphase : g.phase = "missionTeamSelection")
    (htime : g.nominationTimeLeft = 0)
    (hlt : ¬ (timeoutRecorded g).failedMissions ≥ 3)
    (hlen : g.players.length ≠ 0)
    (hidx : ¬ g.currentLeaderIndex + 1 < 0) :
    ∃ g', tick g = .ok g' ∧ g'.phase = "discussion" ∧
      g'.currentMission = g.currentMission + 1 ∧
      g'.missionResults = g.missionResults ++ [timeoutResult g] ∧
      g'.failedMissions = g.failedMissions + 1 ∧
      countLeaders g'.players = 1 := by
  have hres : (nextMissionReset (timeoutRecorded g)).players.length = g.players.length := by
    simp [nextMissionReset, timeoutRecorded]
  refine ⟨{ nextMissionReset (timeoutRecorded g) with
            currentLeaderIndex := (nextLeaderIdx (timeoutRecorded g) : Int),
            players := setIdx (nextMissionReset (timeoutRecorded g)).players
              (nextLeaderIdx (timeoutRecorded g)) (fun p => { p with isLeader := true }),
            phase := "discussion",
            currentPlayerIndex := (nextLeaderIdx (timeoutRecorded g) : Int),
            discussionTimeLeft := 40, discussionTurnCount := 0 },
          ?_, rfl, rfl, rfl, rfl, ?_⟩
  · unfold tick
    rw [hover, if_neg (by decide), hphase, if_neg (by decide), if_pos rfl, htime,
      if_neg (by decide), if_neg hlt]
    unfold nextMission
    rw [if_neg (by rw [hres]; exact hlen),
      if_neg (show ¬ (timeoutRecorded g).currentLeaderIndex + 1 < 0 from hidx)]
  · refine countLeaders_setIdx_true _ _ ?_ ?_
    · rw [hres]
      show nextLeaderIdx (timeoutRecorded g) < g.players.length
      unfold nextLeaderIdx
      exact Nat.mod_lt _ (Nat.pos_of_ne_zero hlen)
    · exact countLeaders_roundReset g.players

theorem tick_timeout_gameover (g : Game)
    (hover : g.gameOver = false) (hphase : g.phase = "missionTeamSelection")
    (htime : g.nominationTimeLeft = 0)
    (hge : (timeoutRecorded g).failedMissions ≥ 3) :
    ∃ g', tick g = .ok g' ∧ g'.gameOver = true ∧ g'.phase = "missionResults" ∧
      g'.winner = some "spy" ∧ g'.currentMission = g.currentMission ∧
      g'.missionResults = g.missionResults ++ [timeoutResult g] := by
  refine ⟨{ timeoutRecorded g with
            gameOver := true, winner := some "spy", phase := "missionResults" },
          ?_, rfl, rfl, rfl, rfl, rfl⟩
  unfold tick
  rw [hover, if_neg (by decide), hphase, if_neg (by decide), if_pos rfl, htime,
    if_neg (by decide), if_pos hge]

/-- C4 amended: a mission resolved by completed ballots ends in phase
missionResults with the mission index unchanged, the scheduler never
advances a missionResults state, so that cycle is entered only via the
explicit nextMission action; but a missionTeamSelection timeout — recorded
as an automatic fail with zero ballots — passes through missionResults only
when it brings failedMissions to 3 (game over): otherwise the next-mission
cycle (increment index, rotate leader, reset to discussion) is entered
immediately and automatically (src/server.js lines 283-304). -/
theorem C4_amended_mission_advancement :
    (∀ (hostId uid v : String) (g : Game) (me : Player),
      g.players.find? (fun p => p.id == uid) = some me →
      g.phase = "missionVoting" → me.name ∈ g.missionTeam → me.missionVote = none →
      ¬(me.role = "resistance" ∧ v = "fail") →
      (setKey g.missionVotes uid v).length = g.missionTeam.length →
      ∃ g', submitAction hostId g uid (.voteForMission v) = .ok g' ∧
        g'.phase = "missionResults" ∧ g'.currentMission = g.currentMission) ∧
    (∀ g : Game, g.phase = "missionResults" → tick g = .ok g) ∧
    (∀ g : Game, g.gameOver = false → g.phase = "missionTeamSelection" →
      g.nominationTimeLeft = 0 → ¬ (timeoutRecorded g).failedMissions ≥ 3 →
      g.players.length ≠ 0 → ¬ g.currentLeaderIndex + 1 < 0 →
      ∃ g', tick g = .ok g' ∧ g'.phase = "discussion" ∧
        g'.currentMission = g.currentMission + 1 ∧
        g'.missionResults = g.missionResults ++ [timeoutResult g] ∧
        g'.failedMissions = g.failedMissions + 1 ∧
        countLeaders g'.players = 1) ∧
    (∀ g : Game, g.gameOver = false → g.phase = "missionTeamSelection" →
      g.nominationTimeLeft = 0 → (timeoutRecorded g).failedMissions ≥ 3 →
      ∃ g', tick g = .ok g' ∧ g'.gameOver = true ∧ g'.phase = "missionResults" ∧
        g'.winner = some "spy" ∧ g'.currentMission = g.currentMission ∧
        g'.missionResults = g.missionResults ++ [timeoutResult g]) := by
  refine ⟨?_, fun g h => tick_missionResults_noop g h,
    fun g h1 h2 h3 h4 h5 h6 => tick_timeout_auto_advance g h1 h2 h3 h4 h5 h6,
    fun g h1 h2 h3 h4 => tick_timeout_gameover g h1 h2 h3 h4⟩
  intro hostId uid v g me hme hphase hmem hmv hch hfull
  refine ⟨resolveMission (recordMissionVote g uid v), ?_, resolveMission_phase _, ?_⟩
  · rw [submitAction_voteForMission hostId uid v g me hme]
    exact handleVoteForMission_resolves g me uid v ⟨hphase, hmem, hmv⟩ hch hfull
  · rw [resolveMission_currentMission]
    rfl

/-- Witness for the amended C4, exercising all four modes on concrete
states: player b's ballot resolving mission 1 of the five-player match, the
scheduler leaving the finished match alone, the reachable timed-out team
selection advancing automatically, and a timed-out selection with two
already-failed missions ending the game. -/
theorem C4_amended_witness :
    (∃ g', submitAction "a" missionVotingState "b" (.voteForMission "fail") = .ok g' ∧
      g'.phase = "missionResults" ∧ g'.currentMission = missionVotingState.currentMission) ∧
    tick gameOverState = .ok gameOverState ∧
    (∃ g', tick timedOutSelState = .ok g' ∧ g'.phase = "discussion" ∧
      g'.currentMission = timedOutSelState.currentMission + 1 ∧
      g'.missionResults = timedOutSelState.missionResults ++ [timeoutResult timedOutSelState] ∧
      g'.failedMissions = timedOutSelState.failedMissions + 1 ∧
      countLeaders g'.players = 1) ∧
    (∃ g', tick { timedOutSelState with failedMissions := 2 } = .ok g' ∧
      g'.gameOver = true ∧ g'.phase = "missionResults" ∧
      g'.winner = some "spy" ∧
      g'.currentMission = ({ timedOutSelState with failedMissions := 2 } : Game).currentMission ∧
      g'.missionResults = ({ timedOutSelState with failedMissions := 2 } : Game).missionResults
        ++ [timeoutResult { timedOutSelState with failedMissions := 2 }]) :=
  ⟨C4_amended_mission_advancement.1 "a" "b" "fail" missionVotingState
      { id := "b", name := "B", role := "spy", spyNumber := some 2,
        isLeader := false, nominated := false, voted := false,
        missionVote := none, confirmedRole := true }
      (by decide) (by decide) (by decide) (by decide) (by decide) (by decide),
   C4_amended_mission_advancement.2.1 gameOverState (by decide),
   C4_amended_mission_advancement.2.2.1 timedOutSelState
      (by decide) (by decide) (by decide) (by decide) (by decide) (by decide),
   C4_amended_mission_advancement.2.2.2 { timedOutSelState with failedMissions := 2 }
      (by decide) (by decide) (by decide) (by decide)⟩

/-- C6: the per-viewer projection masks every player other than the viewer —
role becomes 'unknown', spyNumber becomes null, missionVote becomes null (in
every phase, hence in particular in the phases where votes must stay
secret) — and the fellow-spies side-channel field is attached if and only
if the viewer's own role is spy; a resistance viewer never receives it
(src/server.js lines 355-375). -/
theorem C6_projection_masks_others (g : Game) (viewer q : Player)
    (hq : q ∈ (gameMsgFor g viewer).game.players) (hne : q.id ≠ viewer.id) :
    (q.role = "unknown" ∧ q.spyNumber = none ∧ q.missionVote = none) ∧
    ((gameMsgFor g viewer).spies = some (spiesOf g) ↔ viewer.role = "spy") ∧
    ((gameMsgFor g viewer).spies = none ↔ viewer.role ≠ "spy") := by
  refine ⟨?_, ?_, ?_⟩
  · simp only [gameMsgFor, List.mem_map] at hq
    obtain ⟨pl, hpl, heq⟩ := hq
    by_cases hid : (pl.id == viewer.id) = true
    · rw [if_pos hid] at heq
      exact absurd (heq ▸ eq_of_beq hid) hne
    · rw [if_neg hid] at heq
      rw [← heq]
      exact ⟨rfl, rfl, rfl⟩
  · by_cases hr : viewer.role = "spy" <;> simp [gameMsgFor, hr]
  · by_cases hr : viewer.role = "spy" <;> simp [gameMsgFor, hr]

/-- Witness for C6: in the freshly started five-player match, the spy viewer
a sees the fellow-spy b fully masked yet receives the spies side-channel,
while the resistance viewer c receives none. -/
theorem C6_witness :
    (maskedB.role = "unknown" ∧ maskedB.spyNumber = none ∧ maskedB.missionVote = none) ∧
    (gameMsgFor g5 pA).spies = some (spiesOf g5) ∧
    (gameMsgFor g5 pC).spies = none := by
  refine ⟨(C6_projection_masks_others g5 pA maskedB (by decide) (by decide)).1, ?_, ?_⟩
  · exact (C6_projection_masks_others g5 pA maskedB
      (by decide) (by decide)).2.1.mpr (by decide)
  · exact (C6_projection_masks_others g5 pC maskedB
      (by decide) (by decide)).2.2.mpr (by decide)

theorem processLeaderVote_firstTie (g : Game)
    (h2 : 2 ≤ (leaderVoteWinners g.votes).length)
    (hflag : g.isTieBreakerVote = false) :
    processLeaderVote g = .ok { g with
      tieCandidates := leaderVoteWinners g.votes, phase := "tieDiscussion",
      tieTimeLeft := 30 * (leaderVoteWinners g.votes).length,
      isTieBreakerVote := true } := by
  unfold processLeaderVote
  rw [if_neg (fun h => by rw [h.1] at h2; exact absurd h2 (by decide)),
    if_neg (fun h => by rw [h] at h2; exact absurd h2 (by decide)),
    if_neg (fun h => by rw [hflag] at h; exact absurd h (by decide))]
  rfl

/-- C7: a completed leader-vote tally with two or more winners and the
second-tie flag still clear makes the tied winners the tieCandidates, sets
phase tieDiscussion with timer 30 seconds times the number of tied
candidates, and sets the second-tie flag for the next tally (src/server.js
lines 211-218); and any leader ballot naming a candidate outside a nonempty
tieCandidates is rejected with no state change (line 535). -/
theorem C7_first_tie (g : Game)
    (h2 : 2 ≤ (leaderVoteWinners g.votes).length)
    (hflag : g.isTieBreakerVote = false) :
    processLeaderVote g = .ok { g with
      tieCandidates := leaderVoteWinners g.votes, phase := "tieDiscussion",
      tieTimeLeft := 30 * (leaderVoteWinners g.votes).length,
      isTieBreakerVote := true } ∧
    (∀ (hostId2 uid2 c2 : String) (g2 : Game), g2.tieCandidates ≠ [] →
      c2 ∉ g2.tieCandidates → submitAction hostId2 g2 uid2 (.voteForLeader c2) = .ok g2) := by
  refine ⟨processLeaderVote_firstTie g h2 hflag, ?_⟩
  intro hostId2 uid2 c2 g2 htc hnc
  cases hfind : g2.players.find? (fun p => p.id == uid2) with
  | none => exact submitAction_none hostId2 uid2 g2 _ hfind
  | some me =>
      rw [submitAction_voteForLeader hostId2 uid2 c2 g2 me hfind]
      unfold handleVoteForLeader
      by_cases h1 : g2.phase = "voting" ∧ me.voted = false
      · rw [if_pos h1, if_pos ⟨htc, hnc⟩]
      · rw [if_neg h1]

/-- Witness for C7: the completed 3-3 first ballot of the six-player match
enters tieDiscussion with a 60-second timer, and in the resulting restricted
revote a ballot for the non-candidate A is a no-op. -/
theorem C7_witness :
    processLeaderVote firstTieTallyState = .ok { firstTieTallyState with
      tieCandidates := leaderVoteWinners firstTieTallyState.votes, phase := "tieDiscussion",
      tieTimeLeft := 30 * (leaderVoteWinners firstTieTallyState.votes).length,
      isTieBreakerVote := true } ∧
    submitAction "a" secondTieState "f" (.voteForLeader "A") = .ok secondTieState :=
  ⟨(C7_first_tie firstTieTallyState (by decide) (by decide)).1,
   (C7_first_tie firstTieTallyState (by decide) (by decide)).2 "a" "f" "A" secondTieState
     (by decide) (by decide)⟩

/-- C8 counterexample: in the reachable state `secondTieState` the six
players' leader election tied 3-3 on the non-player names gA and gB, the tie
discussion timed out, and the restricted revote is again heading 3-3; the
final restricted ballot completes a tally with two winners and the
second-tie flag set, yet the election does not resolve to a single leader
with phase leaderDiscussion — the forced winner gA names no player, so the
lookup at src/server.js line 200 yields undefined and line 201 throws,
leaving every isLeader flag cleared and the phase still voting. -/
theorem C8_counterexample :
    2 ≤ (leaderVoteWinners (setKey secondTieState.votes "f" "gB")).length ∧
    secondTieState.isTieBreakerVote = true ∧
    isCrash (submitAction "a" secondTieState "f" (.voteForLeader "gB")) = true ∧
    (resState (submitAction "a" secondTieState "f" (.voteForLeader "gB"))).phase = "voting" ∧
    countLeaders (resState (submitAction "a" secondTieState "f" (.voteForLeader "gB"))).players
      = 0 :=
  ⟨by decide, by decide, by decide, by decide, by decide⟩

/-- C8 amended: when a completed leader-vote tally yields two or more
winners and the second-tie flag is already set, the forced winner is the
candidate named by the original starting leader's own vote if that ballot
names a tied candidate, otherwise the first candidate of the tied set
(`forcedWinner`); provided that the starting-leader position is valid and
the forced winner names an existing player, the election resolves
deterministically: that player becomes the unique leader at the first roster
position bearing the name, the phase becomes leaderDiscussion, and the tie
state (tieCandidates, second-tie flag) is cleared — so an election whose
candidates name real players terminates within at most two tie rounds. -/
theorem C8_amended_forced_resolution (g : Game) (starter : Player) (w : String) (j : Nat)
    (h2 : 2 ≤ (leaderVoteWinners g.votes).length)
    (hflag : g.isTieBreakerVote = true)
    (hst : getIdx g.players g.currentLeaderIndex = some starter)
    (hfw : forcedWinner (leaderVoteWinners g.votes) (lookupKey g.votes starter.id) = some w)
    (hj : findIdxBy (clearLeaders g.players) (fun p => p.name == w) = some j) :
    ∃ g', processLeaderVote g = .ok g' ∧ countLeaders g'.players = 1 ∧
      g'.phase = "leaderDiscussion" ∧ g'.tieCandidates = [] ∧
      g'.isTieBreakerVote = false ∧
      (∃ p, g'.players.get? j = some p ∧ p.name = w ∧ p.isLeader = true) := by
  have hstep : processLeaderVote g = pLVSecondTie g (leaderVoteWinners g.votes) := by
    unfold processLeaderVote
    rw [if_neg (fun h => by rw [h.1] at h2; exact absurd h2 (by decide)),
      if_neg (fun h => by rw [h] at h2; exact absurd h2 (by decide)),
      if_pos hflag]
  refine ⟨{ g with
            players := setIdx (clearLeaders g.players) j (fun p => { p with isLeader := true }),
            currentLeaderIndex := (j : Int), phase := "leaderDiscussion",
            discussionTimeLeft := 40, currentPlayerIndex := (j : Int),
            discussionTurnCount := 0, tieCandidates := [],
            isTieBreakerVote := false }, ?_, ?_, rfl, rfl, rfl, ?_⟩
  · rw [hstep]
    simp only [pLVSecondTie, hst, hfw, hj]
  · exact countLeaders_setIdx_true _ j (findIdxBy_lt _ _ j hj) (countLeaders_clearLeaders _)
  · obtain ⟨p, hp, hfp⟩ := findIdxBy_get _ _ j hj
    refine ⟨{ p with isLeader := true }, ?_, eq_of_beq hfp, rfl⟩
    rw [get?_setIdx_self, hp]
    rfl

/-- Witness for the amended C8: the same election as the C8 counterexample
but with the real names A and B as tied candidates — the starter a voted A,
which is among the winners, so player a (index 0) becomes the unique leader
and the match enters leaderDiscussion. -/
theorem C8_amended_witness :
    ∃ g', processLeaderVote secondTieRealTallyState = .ok g' ∧
      countLeaders g'.players = 1 ∧
      g'.phase = "leaderDiscussion" ∧ g'.tieCandidates = [] ∧
      g'.isTieBreakerVote = false ∧
      (∃ p, g'.players.get? 0 = some p ∧ p.name = "A" ∧ p.isLeader = true) :=
  C8_amended_forced_resolution secondTieRealTallyState starterA "A" 0
    (by decide) (by decide) (by decide) (by decide) (by decide)

/-- C2 counterexample: `votingState` is reachable from `initGame` by the
explicit trace `votingTrace` (all roles confirmed, two nominations, five
host passes); its phase is voting — not roleReveal — yet no player has
isLeader=true, because `finalizeDiscussion` clears every leader flag before
entering the voting phase (src/server.js line 124) and sets none. -/
theorem C2_counterexample :
    votingState.phase = "voting" ∧ votingState.phase ≠ "roleReveal" ∧
    countLeaders votingState.players = 0 :=
  ⟨by decide, by decide, by decide⟩

/-- C2 amended: the voting and tieDiscussion phases carry no leader rather
than exactly one — the transition into voting clears every isLeader flag,
the first-tie transition into tieDiscussion leaves the roster untouched, and
the tie-timeout transition back to voting preserves the leader count — while
the leader-establishing transitions (a single-winner tally whose winner
names an existing player, and the next-mission rotation) each produce
exactly one leader. -/
theorem C2_amended_leader_flags :
    (∀ (g : Game) (c1 c2 : String) (cs : List String),
      g.nominatedPlayers = c1 :: c2 :: cs →
      ∃ g', finalizeDiscussion g = .ok g' ∧ g'.phase = "voting" ∧
        countLeaders g'.players = 0) ∧
    (∀ g : Game, 2 ≤ (leaderVoteWinners g.votes).length → g.isTieBreakerVote = false →
      ∃ g', processLeaderVote g = .ok g' ∧ g'.phase = "tieDiscussion" ∧
        g'.players = g.players) ∧
    (∀ g : Game, g.gameOver = false → g.phase = "tieDiscussion" → g.tieTimeLeft = 0 →
      ∃ g', tick g = .ok g' ∧ g'.phase = "voting" ∧
        countLeaders g'.players = countLeaders g.players) ∧
    (∀ (g : Game) (w : String) (j : Nat), leaderVoteWinners g.votes = [w] →
      findIdxBy (clearLeaders g.players) (fun p => p.name == w) = some j →
      ∃ g', processLeaderVote g = .ok g' ∧ countLeaders g'.players = 1 ∧
        g'.phase = "leaderDiscussion") ∧
    (∀ g : Game, g.players.length ≠ 0 → ¬ g.currentLeaderIndex + 1 < 0 →
      ∃ g', nextMission g = .ok g' ∧ countLeaders g'.players = 1 ∧
        g'.phase = "discussion") := by
  refine ⟨?_, ?_, ?_, ?_, ?_⟩
  · intro g c1 c2 cs hnp
    refine ⟨{ g with
              players := (clearLeaders g.players).map (fun p => { p with voted := false }),
              phase := "voting", votes := [] }, ?_, rfl, ?_⟩
    · simp only [finalizeDiscussion, hnp]
    · rw [countLeaders_votedReset, countLeaders_clearLeaders]
  · intro g h2 hflag
    exact ⟨_, processLeaderVote_firstTie g h2 hflag, rfl, rfl⟩
  · intro g hover hphase htime
    refine ⟨{ g with
              phase := "voting",
              players := g.players.map (fun p => { p with voted := false }),
              votes := [] }, ?_, rfl, countLeaders_votedReset g.players⟩
    unfold tick
    rw [hover, if_neg (by decide), hphase, if_neg (by decide), if_neg (by decide),
      if_pos rfl, htime, if_neg (by decide)]
  · intro g w j hw hj
    refine ⟨{ g with
              players := setIdx (clearLeaders g.players) j (fun p => { p with isLeader := true }),
              currentLeaderIndex := (j : Int), phase := "leaderDiscussion",
              discussionTimeLeft := 40, currentPlayerIndex := (j : Int),
              discussionTurnCount := 0, tieCandidates := [],
              isTieBreakerVote := false }, ?_, ?_, rfl⟩
    · unfold processLeaderVote
      rw [hw]
      rw [if_neg (fun h => List.cons_ne_nil w [] h.1),
        if_pos (show ([w] : List String).length = 1 from rfl)]
      simp only [pLVSingle, List.headD_cons, hj]
    · exact countLeaders_setIdx_true _ j (findIdxBy_lt _ _ j hj) (countLeaders_clearLeaders _)
  · intro g hlen hidx
    have hres : (nextMissionReset g).players.length = g.players.length := by
      simp [nextMissionReset]
    refine ⟨{ nextMissionReset g with
              currentLeaderIndex := (nextLeaderIdx g : Int),
              players := setIdx (nextMissionReset g).players (nextLeaderIdx g)
                (fun p => { p with isLeader := true }),
              phase := "discussion", currentPlayerIndex := (nextLeaderIdx g : Int),
              discussionTimeLeft := 40, discussionTurnCount := 0 }, ?_, ?_, rfl⟩
    · unfold nextMission
      rw [if_neg (by rw [hres]; exact hlen), if_neg hidx]
    · refine countLeaders_setIdx_true _ _ ?_ (countLeaders_roundReset g.players)
      rw [hres]
      exact Nat.mod_lt _ (Nat.pos_of_ne_zero hlen)

/-- Witness for the amended C2, instantiating every conjunct on concrete
reachable states: the two-candidate finalize of the five-player match, the
3-3 first-tie tally, the timed-out tie discussion, the unanimous election of
B, and the next-mission rotation of the finished match. -/
theorem C2_amended_witness :
    (∃ g', finalizeDiscussion ghostVotesState = .ok g' ∧ g'.phase = "voting" ∧
      countLeaders g'.players = 0) ∧
    (∃ g', processLeaderVote firstTieTallyState = .ok g' ∧ g'.phase = "tieDiscussion" ∧
      g'.players = firstTieTallyState.players) ∧
    (∃ g', tick tieTimeoutState = .ok g' ∧ g'.phase = "voting" ∧
      countLeaders g'.players = countLeaders tieTimeoutState.players) ∧
    (∃ g', processLeaderVote singleWinnerTallyState = .ok g' ∧
      countLeaders g'.players = 1 ∧ g'.phase = "leaderDiscussion") ∧
    (∃ g', nextMission gameOverState = .ok g' ∧ countLeaders g'.players = 1 ∧
      g'.phase = "discussion") :=
  ⟨C2_amended_leader_flags.1 ghostVotesState "B" "C" [] (by decide),
   C2_amended_leader_flags.2.1 firstTieTallyState (by decide) (by decide),
   C2_amended_leader_flags.2.2.1 tieTimeoutState (by decide) (by decide) (by decide),
   C2_amended_leader_flags.2.2.2.1 singleWinnerTallyState "B" 1 (by decide) (by decide),
   C2_amended_leader_flags.2.2.2.2 gameOverState (by decide) (by decide)⟩

/-- C10: replaying the explicit trace to `ghostVotesState` shows the
voteForLeader handler accepts ballots for the name 'ghost', which matches no
player, when tieCandidates is empty (no validation at src/server.js line
535); the fifth such ballot completes the tally, 'ghost' is the unique
maximum, the winner lookup at line 177 finds no player, and line 178 throws
on the missing value — the embedded tally's error branch is reached, and the
room keeps a state with all five ballots recorded, every isLeader flag
cleared, and phase still voting. -/
theorem C10_ghost_candidate_crash :
    ghostVotesState.phase = "voting" ∧
    ghostVotesState.tieCandidates = [] ∧
    ghostVotesState.players.all (fun p => p.name != "ghost") = true ∧
    leaderVoteWinners (setKey ghostVotesState.votes "e" "ghost") = ["ghost"] ∧
    isCrash (submitAction "a" ghostVotesState "e" (.voteForLeader "ghost")) = true ∧
    (resState (submitAction "a" ghostVotesState "e" (.voteForLeader "ghost"))).votes.length
      = 5 ∧
    lookupKey (resState (submitAction "a" ghostVotesState "e" (.voteForLeader "ghost"))).votes
      "e" = some "ghost" ∧
    countLeaders (resState (submitAction "a" ghostVotesState "e"
      (.voteForLeader "ghost"))).players = 0 ∧
    (resState (submitAction "a" ghostVotesState "e" (.voteForLeader "ghost"))).phase
      = "voting" :=
  ⟨by decide, by decide, by decide, by decide, by decide, by decide, by decide,
   by decide, by decide⟩

/-- C4 counterexample: the reachable timed-out team selection
`timedOutSelState` (mission 1, no prior failures) is advanced by the next
scheduler tick straight into the next-mission cycle — phase `discussion`,
mission index incremented — never entering `missionResults` and without any
nextMission action, contradicting the claim that the phase becomes
missionResults after every mission resolution and that the cycle is never
entered automatically. -/
theorem C4_counterexample :
    timedOutSelState.phase = "missionTeamSelection" ∧
    timedOutSelState.nominationTimeLeft = 0 ∧
    timedOutSelState.gameOver = false ∧
    (resState (tick timedOutSelState)).phase = "discussion" ∧
    (resState (tick timedOutSelState)).phase ≠ "missionResults" ∧
    (resState (tick timedOutSelState)).currentMission = timedOutSelState.currentMission + 1 := by
  exact ⟨by decide, by decide, by decide, by decide, by decide, by decide⟩

end Resistance
